import Mathlib

/-!
Shallow embedding of the ocean renderer (`src/renderer/ocean.cpp`) of the Granite engine.

Modelling conventions:
* 32-bit floats are modelled as exact rationals (`ℚ`).  Every value the theorems below
  evaluate is exactly representable in binary floating point (integers, halves, and
  quotients by powers of two), so the rational model agrees with the float computation
  at every point where a theorem inspects it.
* `uint8_t` truncation is modelled as `% 256`; C `round` (half away from zero) and the
  float-to-int cast (truncation toward zero) get explicit Lean definitions.
* GPU command submission is modelled as an explicit trace: each `cmd.dispatch`,
  `cmd.barrier`, buffer bind or indirect draw appends one constructor to a list, in
  program order.  Push-constant structs are embedded field by field.
* Configuration constants (`height_fft_size`, `grid_width`, ... declared in
  `ocean.hpp`, outside the provided sources) are carried in an `OceanConfig` record
  and every function is parameterized by it.
-/

set_option maxRecDepth 10000

namespace Granite

/-- Configuration constants of the `Ocean` class (declared in `ocean.hpp`; values are
free parameters here).  `size` / `size_normal` are the world-space extents (float
vec2s in the source), kept componentwise. -/
structure OceanConfig where
  height_fft_size : ℕ
  displacement_fft_size : ℕ
  normal_fft_size : ℕ
  grid_width : ℕ
  grid_height : ℕ
  grid_resolution : ℕ
  size_x : ℚ
  size_y : ℚ
  size_normal_x : ℚ
  size_normal_y : ℚ
deriving DecidableEq

/-- `static constexpr unsigned MaxLODIndirect = 8` (ocean.cpp:35). -/
def MaxLODIndirect : ℕ := 8

/-- `struct OceanVertex { uint8_t pos[4]; uint8_t weights[4]; }` (ocean.cpp:37). -/
structure OceanVertex where
  pos0 : ℕ
  pos1 : ℕ
  pos2 : ℕ
  pos3 : ℕ
  w0 : ℕ
  w1 : ℕ
  w2 : ℕ
  w3 : ℕ
deriving DecidableEq

/-- The boundary-weight assignment of `Ocean::build_lod` (ocean.cpp:722-729): a
mutually exclusive `if` / `else if` chain on the vertex coordinates. -/
def boundaryWeights (grid_resolution x y : ℕ) : ℕ × ℕ × ℕ × ℕ :=
  if x = 0 then (255, 0, 0, 0)
  else if x = grid_resolution then (0, 255, 0, 0)
  else if y = 0 then (0, 0, 255, 0)
  else if y = grid_resolution then (0, 0, 0, 255)
  else (0, 0, 0, 0)

/-- One vertex of the loop body of `Ocean::build_lod` (ocean.cpp:716-731).
`half_size = grid_resolution >> 1`; the positions are truncated to `uint8_t`. -/
def oceanVertexAt (grid_resolution x y : ℕ) : OceanVertex :=
  let half_size := grid_resolution / 2
  let w := boundaryWeights grid_resolution x y
  { pos0 := x % 256
    pos1 := y % 256
    pos2 := if x < half_size then 1 else 0
    pos3 := if y < half_size then 1 else 0
    w0 := w.1
    w1 := w.2.1
    w2 := w.2.2.1
    w3 := w.2.2.2 }

/-- Values taken by `for (v = 0; v <= res; v += stride)` for `stride ≥ 1`. -/
def strideRange (res stride : ℕ) : List ℕ :=
  (List.range (res / stride + 1)).map (fun i => i * stride)

/-- The vertex grid of `Ocean::build_lod` (ocean.cpp:712-733): `y` outer loop,
`x` inner loop, both over `[0, grid_resolution]` at the given stride. -/
def lodVertices (grid_resolution stride : ℕ) : List OceanVertex :=
  (strideRange grid_resolution stride).flatMap fun y =>
    (strideRange grid_resolution stride).map fun x =>
      oceanVertexAt grid_resolution x y

/-- The index buffer of `Ocean::build_lod` (ocean.cpp:735-745): `size` slices, each a
triangle-strip row of `2 * (size + 1)` indices followed by the primitive-restart
sentinel `0xffff`. -/
def lodIndices (size : ℕ) : List ℕ :=
  (List.range size).flatMap fun slice =>
    ((List.range (size + 1)).flatMap fun x =>
      [slice * (size + 1) + x, slice * (size + 1) + (size + 1) + x]) ++ [0xffff]

/-- One LOD mesh tier: vertex buffer contents, index buffer contents and the stored
index count (`lod.count = indices.size()`, ocean.cpp:758). -/
structure LOD where
  vbo : List OceanVertex
  ibo : List ℕ
  count : ℕ
deriving DecidableEq, Inhabited

/-- `Ocean::build_lod` (ocean.cpp:702-761). -/
def build_lod (grid_resolution size stride : ℕ) : LOD :=
  let vertices := lodVertices grid_resolution stride
  let indices := lodIndices size
  { vbo := vertices, ibo := indices, count := indices.length }

/-- The `while (size >= 2)` loop of `Ocean::build_buffers` (ocean.cpp:767-772):
build a tier, then `size >>= 1; stride <<= 1`.  The loop strictly halves `size`
each iteration, so `size` itself bounds the iteration count; the first argument is
that structural fuel.  `buildBuffersLoop_fuel_irrel` below shows the result never
depends on the fuel once the fuel is at least `size`, so with fuel `size` this is
exactly the source's `while` loop. -/
def buildBuffersLoop (grid_resolution : ℕ) : ℕ → ℕ → ℕ → List LOD
  | 0, _, _ => []
  | fuel + 1, size, stride =>
    if 2 ≤ size then
      build_lod grid_resolution size stride ::
        buildBuffersLoop grid_resolution fuel (size / 2) (stride * 2)
    else
      []

/-- `Ocean::build_buffers` (ocean.cpp:763-773): start at `size = grid_resolution`,
`stride = 1`. -/
def build_buffers (grid_resolution : ℕ) : List LOD :=
  buildBuffersLoop grid_resolution grid_resolution grid_resolution 1

/-- The constant array uploaded by `Ocean::init_counter_buffer` (ocean.cpp:255-257):
16 entries, entry `i` is `quad_lod[i].count` when `i < quad_lod.size()`, else 0. -/
def init_counter_data (quad_lod : List LOD) : List ℕ :=
  (List.range 16).map fun i => (quad_lod.map LOD.count).getD i 0

/-- C library `round` (used through muglm on the camera position): round half away
from zero. -/
def roundHalfAwayFromZero (q : ℚ) : ℤ :=
  if 0 ≤ q then ⌊q + 1 / 2⌋ else -⌊1 / 2 - q⌋

/-- C float-to-int cast: truncation toward zero (`ivec2(...)` of a float vector). -/
def truncToInt (q : ℚ) : ℤ :=
  if 0 ≤ q then ⌊q⌋ else -⌊-q⌋

/-- `Ocean::get_grid_size` (ocean.cpp:206-209): `size / vec2(grid_width, grid_height)`. -/
def get_grid_size (c : OceanConfig) : ℚ × ℚ :=
  (c.size_x / (c.grid_width : ℚ), c.size_y / (c.grid_height : ℚ))

/-- `Ocean::get_snapped_grid_center` (ocean.cpp:211-216): round the camera `xz`
position scaled by `vec2(grid_width, grid_height) / size`.  The result of the float
`round` is an integral float, kept here as a rational. -/
def get_snapped_grid_center (camera_x camera_z : ℚ) (c : OceanConfig) : ℚ × ℚ :=
  let inv_grid_size_x : ℚ := (c.grid_width : ℚ) / c.size_x
  let inv_grid_size_y : ℚ := (c.grid_height : ℚ) / c.size_y
  ((roundHalfAwayFromZero (camera_x * inv_grid_size_x) : ℤ),
   (roundHalfAwayFromZero (camera_z * inv_grid_size_y) : ℤ))

/-- `Ocean::get_grid_base_coord` (ocean.cpp:218-221): the truncating `ivec2` cast of
the snapped center, minus `ivec2(grid_width, grid_height) >> 1`. -/
def get_grid_base_coord (camera_x camera_z : ℚ) (c : OceanConfig) : ℤ × ℤ :=
  let gc := get_snapped_grid_center camera_x camera_z c
  (truncToInt gc.1 - ((c.grid_width / 2 : ℕ) : ℤ),
   truncToInt gc.2 - ((c.grid_height / 2 : ℕ) : ℤ))

/-- The world-space grid base computed identically in `Ocean::build_lod_map`
(ocean.cpp:229) and `Ocean::cull_blocks` (ocean.cpp:279):
`grid_center * get_grid_size() - 0.5f * size`. -/
def grid_base_offset (camera_x camera_z : ℚ) (c : OceanConfig) : ℚ × ℚ :=
  let gc := get_snapped_grid_center camera_x camera_z c
  let gs := get_grid_size c
  (gc.1 * gs.1 - c.size_x / 2, gc.2 * gs.2 - c.size_y / 2)

/-- Push constants of `Ocean::build_lod_map` (ocean.cpp:231-245). -/
structure LodMapPush where
  camera_pos : ℚ × ℚ × ℚ
  max_lod : ℚ
  image_offset : ℤ × ℤ
  num_threads : ℤ × ℤ
  grid_base : ℚ × ℚ
  grid_size : ℚ × ℚ
deriving DecidableEq

/-- The full dispatch record of the detail-level classification pass
(`update_lod.comp`): push constants plus workgroup counts (ocean.cpp:249). -/
structure LodMapDispatch where
  push : LodMapPush
  groups : ℕ × ℕ × ℕ
deriving DecidableEq

/-- `Ocean::build_lod_map` (ocean.cpp:223-250): assemble the push constants from the
latched camera position, the configuration and `quad_lod.size()`, then dispatch
`⌈grid/8⌉ × ⌈grid/8⌉ × 1` workgroups. -/
def build_lod_map (camera : ℚ × ℚ × ℚ) (c : OceanConfig) (num_lods : ℕ) : LodMapDispatch :=
  { push := {
      camera_pos := camera
      max_lod := (num_lods : ℚ) - 1
      image_offset := get_grid_base_coord camera.1 camera.2.2 c
      num_threads := ((c.grid_width : ℤ), (c.grid_height : ℤ))
      grid_base := grid_base_offset camera.1 camera.2.2 c
      grid_size := get_grid_size c }
    groups := ((c.grid_width + 7) / 8, (c.grid_height + 7) / 8, 1) }

/-- Push constants of `Ocean::cull_blocks` (ocean.cpp:266-292).  The six frustum
planes are uploaded separately from the render context and carry no per-pass
computation, so they are not part of this record. -/
structure CullPush where
  image_offset : ℤ × ℤ
  num_threads : ℤ × ℤ
  inv_num_threads : ℚ × ℚ
  grid_base : ℚ × ℚ
  grid_size : ℚ × ℚ
  grid_resolution : ℚ × ℚ
  heightmap_range : ℚ × ℚ
  lod_stride : ℕ
deriving DecidableEq

/-- The push constants assembled by `Ocean::cull_blocks` (ocean.cpp:285-292). -/
def cull_blocks_push (camera : ℚ × ℚ × ℚ) (c : OceanConfig) : CullPush :=
  { image_offset := get_grid_base_coord camera.1 camera.2.2 c
    num_threads := ((c.grid_width : ℤ), (c.grid_height : ℤ))
    inv_num_threads := (1 / (c.grid_width : ℚ), 1 / (c.grid_height : ℚ))
    grid_base := grid_base_offset camera.1 camera.2.2 c
    grid_size := get_grid_size c
    lod_stride := c.grid_width * c.grid_height
    heightmap_range := (-10, 10)
    grid_resolution := ((c.grid_resolution : ℚ), (c.grid_resolution : ℚ)) }

/-- Pipeline stages appearing in the barriers of the LOD update pass. -/
inductive PipelineStage
  | computeShader
deriving DecidableEq

/-- Access flags appearing in the barriers of the LOD update pass. -/
inductive AccessFlag
  | shaderRead
  | shaderWrite
deriving DecidableEq

/-- One recorded GPU command of `Ocean::update_lod_pass`, in submission order. -/
inductive OceanGpuCmd
  | dispatchLodMap (d : LodMapDispatch)
  | dispatchInitCounter (counters : List ℕ) (groups : ℕ × ℕ × ℕ)
  | memoryBarrier (srcStage : PipelineStage) (srcAccess : List AccessFlag)
      (dstStage : PipelineStage) (dstAccess : List AccessFlag)
  | dispatchCullBlocks (p : CullPush) (groups : ℕ × ℕ × ℕ)
deriving DecidableEq

/-- Recognizer for barrier commands. -/
def isMemoryBarrier : OceanGpuCmd → Bool
  | .memoryBarrier _ _ _ _ => true
  | _ => false

/-- Commands recorded by `Ocean::build_lod_map` (one dispatch). -/
def build_lod_map_cmds (camera : ℚ × ℚ × ℚ) (c : OceanConfig) (num_lods : ℕ) :
    List OceanGpuCmd :=
  [.dispatchLodMap (build_lod_map camera c num_lods)]

/-- Commands recorded by `Ocean::init_counter_buffer` (ocean.cpp:252-262): upload the
16-entry index-count array and dispatch a single workgroup. -/
def init_counter_buffer_cmds (quad_lod : List LOD) : List OceanGpuCmd :=
  [.dispatchInitCounter (init_counter_data quad_lod) (1, 1, 1)]

/-- Commands recorded by `Ocean::cull_blocks` (one dispatch over
`⌈grid/8⌉ × ⌈grid/8⌉` workgroups, ocean.cpp:304). -/
def cull_blocks_cmds (camera : ℚ × ℚ × ℚ) (c : OceanConfig) : List OceanGpuCmd :=
  [.dispatchCullBlocks (cull_blocks_push camera c)
    ((c.grid_width + 7) / 8, (c.grid_height + 7) / 8, 1)]

/-- Mutable per-frame state of the `Ocean` object that the LOD update pass reads:
the configuration, the latched elapsed time (`on_frame_tick`), the latched camera
position (`refresh`), and the LOD mesh table. -/
structure OceanState where
  config : OceanConfig
  current_time : ℚ
  last_camera_position : ℚ × ℚ × ℚ
  quad_lod : List LOD
deriving DecidableEq

/-- `Ocean::update_lod_pass` (ocean.cpp:307-316): build the LOD map, initialize the
counters, issue one compute→compute barrier (write → write|read), then cull. -/
def update_lod_pass (s : OceanState) : List OceanGpuCmd :=
  build_lod_map_cmds s.last_camera_position s.config s.quad_lod.length ++
  init_counter_buffer_cmds s.quad_lod ++
  [.memoryBarrier .computeShader [.shaderWrite]
      .computeShader [.shaderWrite, .shaderRead]] ++
  cull_blocks_cmds s.last_camera_position s.config

/-- GLFFT transform mode (`GLFFT::ComplexToReal` / `GLFFT::ComplexToComplex`). -/
inductive FFTMode
  | complexToReal
  | complexToComplex
deriving DecidableEq

/-- GLFFT transform direction. -/
inductive FFTDirection
  | forward
  | inverse
deriving DecidableEq

/-- GLFFT input/output target kinds used in `Ocean::on_device_created`. -/
inductive FFTTarget
  | ssbo
  | image
  | imageReal
deriving DecidableEq

/-- One configured GLFFT plan (`GLFFT::FFT(iface, Nx, Ny, mode, direction, input,
output, cache, options)`). -/
structure FFTPlan where
  size_x : ℕ
  size_y : ℕ
  mode : FFTMode
  direction : FFTDirection
  input_target : FFTTarget
  output_target : FFTTarget
deriving DecidableEq

/-- Errors the spec's §7 would have construction raise.  The source raises neither. -/
inductive ConfigError
  | nonPowerOfTwoFFT
  | zeroGridDimensions
deriving DecidableEq

/-- State built by `Ocean::on_device_created` / `build_buffers` / `init_distributions`:
the three FFT plans, the LOD mesh table, and the three distribution-buffer byte sizes
(`resolution² × sizeof(vec2)`, ocean.cpp:785-787). -/
structure OceanDeviceState where
  height_fft : FFTPlan
  displacement_fft : FFTPlan
  normal_fft : FFTPlan
  quad_lod : List LOD
  distribution_bytes : ℕ × ℕ × ℕ
deriving DecidableEq

/-- `Ocean::on_device_created` (ocean.cpp:77-110).  The source performs no
configuration validation of any kind; the `Except` result marks where a §7-style
rejection would occur, and the embedded function returns `ok` on every input, exactly
as the source falls through to `build_buffers` and `init_distributions`. -/
def on_device_created (c : OceanConfig) : Except ConfigError OceanDeviceState :=
  .ok {
    height_fft := {
      size_x := c.height_fft_size, size_y := c.height_fft_size
      mode := .complexToReal, direction := .inverse
      input_target := .ssbo, output_target := .imageReal }
    displacement_fft := {
      size_x := c.displacement_fft_size, size_y := c.displacement_fft_size
      mode := .complexToComplex, direction := .inverse
      input_target := .ssbo, output_target := .image }
    normal_fft := {
      size_x := c.normal_fft_size, size_y := c.normal_fft_size
      mode := .complexToComplex, direction := .inverse
      input_target := .ssbo, output_target := .image }
    quad_lod := build_buffers c.grid_resolution
    distribution_bytes :=
      (c.height_fft_size * c.height_fft_size * 8,
       c.displacement_fft_size * c.displacement_fft_size * 8,
       c.normal_fft_size * c.normal_fft_size * 8) }

/-- Shader variants of `generate_fft.comp` registered in `Ocean::update_fft_input`
(ocean.cpp:321-323). -/
inductive GenerateVariant
  | base
  | gradientNormal
  | gradientDisplacement
deriving DecidableEq

/-- The static spectrum buffer bound at set 0, binding 0 of a `generate_fft`
dispatch. -/
inductive DistributionBuffer
  | height
  | displacement
  | normal
deriving DecidableEq

/-- The frequency-domain output buffer bound at set 0, binding 1 of a `generate_fft`
dispatch. -/
inductive FFTInputBuffer
  | height
  | displacement
  | normal
deriving DecidableEq

/-- One `generate_fft.comp` dispatch of `Ocean::update_fft_input`: the shader
variant, the push constants (`mod = 2π / mod_divisor` componentwise, the grid size
`N`, the latched time), the two buffer bindings, and the workgroup counts. -/
structure FFTInputDispatch where
  variant : GenerateVariant
  mod_divisor : ℚ × ℚ
  N : ℕ × ℕ
  time : ℚ
  distribution : DistributionBuffer
  target : FFTInputBuffer
  groups : ℕ × ℕ × ℕ
deriving DecidableEq

/-- `Ocean::update_fft_input` (ocean.cpp:318-356), one dispatch per field in source
order.  Note the displacement dispatch (ocean.cpp:343): the source sets
`push.N = uvec2(normal_fft_size, normal_fft_size)` while dispatching
`displacement_fft_size / 64 × displacement_fft_size` workgroups. -/
def update_fft_input (c : OceanConfig) (current_time : ℚ) : List FFTInputDispatch :=
  [ { variant := .base
      mod_divisor := (c.size_x, c.size_y)
      N := (c.height_fft_size, c.height_fft_size)
      time := current_time
      distribution := .height
      target := .height
      groups := (c.height_fft_size / 64, c.height_fft_size, 1) },
    { variant := .gradientDisplacement
      mod_divisor := (c.size_x, c.size_y)
      N := (c.normal_fft_size, c.normal_fft_size)
      time := current_time
      distribution := .displacement
      target := .displacement
      groups := (c.displacement_fft_size / 64, c.displacement_fft_size, 1) },
    { variant := .gradientNormal
      mod_divisor := (c.size_normal_x, c.size_normal_y)
      N := (c.normal_fft_size, c.normal_fft_size)
      time := current_time
      distribution := .normal
      target := .normal
      groups := (c.normal_fft_size / 64, c.normal_fft_size, 1) } ]

/-- Texture formats appearing in `Ocean::add_fft_update_pass`. -/
inductive VkFormat
  | r16_sfloat
  | r16g16_sfloat
  | r16g16b16a16_sfloat
deriving DecidableEq

/-- The `AttachmentInfo` fields relevant to the declared texture outputs: absolute
size and mip level count (`levels` defaults to 1 in the render graph's
`AttachmentInfo`, declared outside `src/`). -/
structure AttachmentDecl where
  size_x : ℕ
  size_y : ℕ
  format : VkFormat
  levels : ℕ
deriving DecidableEq

/-- A named storage-texture output declared on the `ocean-update-fft` pass. -/
structure FFTPassDecl where
  name : String
  info : AttachmentDecl
deriving DecidableEq

/-- The storage-texture outputs declared by `Ocean::add_fft_update_pass`
(ocean.cpp:510-577), in declaration order.  The same `height_displacement`
`AttachmentInfo` variable is reused for the last two declarations: its `levels`
field is set to `quad_lod.size()` before declaring
`ocean-height-displacement-output` (ocean.cpp:562) and then reassigned to `0`
before declaring `ocean-gradient-jacobian-output` (ocean.cpp:568). -/
def add_fft_update_pass_textures (c : OceanConfig) (num_lods : ℕ) : List FFTPassDecl :=
  let height_map : AttachmentDecl :=
    { size_x := c.height_fft_size, size_y := c.height_fft_size
      format := .r16_sfloat, levels := 1 }
  let normal_map : AttachmentDecl :=
    { size_x := c.normal_fft_size, size_y := c.normal_fft_size
      format := .r16g16_sfloat, levels := 1 }
  let displacement_map : AttachmentDecl :=
    { size_x := c.displacement_fft_size, size_y := c.displacement_fft_size
      format := .r16g16_sfloat, levels := 1 }
  let height_displacement : AttachmentDecl :=
    { size_x := c.height_fft_size, size_y := c.height_fft_size
      format := .r16g16b16a16_sfloat, levels := num_lods }
  [ { name := "ocean-height-fft-output", info := height_map },
    { name := "ocean-normal-fft-output", info := normal_map },
    { name := "ocean-displacement-fft-output", info := displacement_map },
    { name := "ocean-height-displacement-output", info := height_displacement },
    { name := "ocean-gradient-jacobian-output",
      info := { height_displacement with levels := 0 } } ]

/-- The declared mip level count of the named texture output, if declared. -/
def declaredLevels (decls : List FFTPassDecl) (n : String) : Option ℕ :=
  (decls.find? fun d => d.name == n).map fun d => d.info.levels

/-- Buffer-and-draw commands recorded by `RenderFunctions::ocean_render`.
Buffers are identified by numeric ids.  The constructors cover every operation the
source performs inside the per-instance loop; there is no host-side buffer read. -/
inductive RenderCmd
  | pushOceanData
  | setTexture (descriptorSet binding : ℕ)
  | setUniformBuffer (descriptorSet binding buf offset range : ℕ)
  | setVertexBinding (binding buf offset stride : ℕ)
  | setIndexBuffer (buf offset : ℕ)
  | drawIndexedIndirect (buf byteOffset drawCount strideBytes : ℕ)
deriving DecidableEq

/-- The fields of `OceanInfo` (ocean.cpp:594-610) that `ocean_render` reads. -/
structure OceanInfo where
  ubo : ℕ
  indirect : ℕ
  vbos : List ℕ
  ibos : List ℕ
  lods : ℕ
  lod_stride : ℕ
deriving DecidableEq

/-- The body of the per-LOD loop of `RenderFunctions::ocean_render`
(ocean.cpp:633-642): bind the level's sub-range of the tile data UBO at offset
`lod_stride * lod` with length `lod_stride`, bind the level's vertex and index
buffers, and issue one indirect draw reading its arguments at byte offset
`8 * sizeof(uint32_t) * lod` of the counter buffer. -/
def render_lod (info : OceanInfo) (lod : ℕ) : List RenderCmd :=
  [ .setUniformBuffer 3 0 info.ubo (info.lod_stride * lod) info.lod_stride,
    .setVertexBinding 0 (info.vbos.getD lod 0) 0 8,
    .setIndexBuffer (info.ibos.getD lod 0) 0,
    .drawIndexedIndirect info.indirect (8 * 4 * lod) 1 (8 * 4) ]

/-- One iteration of the per-instance loop of `RenderFunctions::ocean_render`
(ocean.cpp:625-643): push constants, the four texture binds, then the per-LOD loop
for `lod = 0, ..., lods - 1` in that order. -/
def render_instance (info : OceanInfo) : List RenderCmd :=
  [RenderCmd.pushOceanData,
   .setTexture 2 0, .setTexture 2 1, .setTexture 2 2, .setTexture 2 3] ++
  (List.range info.lods).flatMap (render_lod info)

/-- `RenderFunctions::ocean_render` (ocean.cpp:614-644), as the trace of recorded
commands over `num_instances` instances. -/
def ocean_render (info : OceanInfo) (num_instances : ℕ) : List RenderCmd :=
  (List.range num_instances).flatMap fun _ => render_instance info

/-- Extract the arguments of an indirect draw command. -/
def indirectDrawArgs : RenderCmd → Option (ℕ × ℕ × ℕ × ℕ)
  | .drawIndexedIndirect buf off cnt stride => some (buf, off, cnt, stride)
  | _ => none

/-- Modelled from the spec: the culling kernel `cull_blocks.comp` is not under
`src/`; per §4.2 the dispatch covers every grid cell and each cell whose bounding
volume passes the frustum test is appended exactly once to its level's tile list
(atomic increment + write at the pre-increment index).  The total number of appended
tiles over all levels is therefore the number of cells accepted by the frustum
predicate. -/
def cullAppendTotal (accept : ℕ → ℕ → Bool) (grid_width grid_height : ℕ) : ℕ :=
  ((List.range grid_height).flatMap fun y =>
    (List.range grid_width).map fun x => (x, y)).countP
    fun cell => accept cell.1 cell.2

/-- The dispatch record of the classification pass as a function of the per-frame
`Ocean` state: `build_lod_map` reads only the latched camera position, the
configuration and `quad_lod.size()` (ocean.cpp:223-250). -/
def build_lod_map_state (s : OceanState) : LodMapDispatch :=
  build_lod_map s.last_camera_position s.config s.quad_lod.length

/-- A concrete configuration for the end-to-end scenario of §8: 64×64 cell grid,
1000×1000 world size (the other fields are arbitrary powers of two). -/
def cfg64 : OceanConfig :=
  { height_fft_size := 256, displacement_fft_size := 256, normal_fft_size := 256
    grid_width := 64, grid_height := 64, grid_resolution := 8
    size_x := 1000, size_y := 1000, size_normal_x := 64, size_normal_y := 64 }

/-- A malformed configuration: zero grid dimensions and zero tessellation
resolution, with well-formed power-of-two FFT sizes. -/
def zeroGridConfig : OceanConfig :=
  { height_fft_size := 256, displacement_fft_size := 256, normal_fft_size := 256
    grid_width := 0, grid_height := 0, grid_resolution := 0
    size_x := 1000, size_y := 1000, size_normal_x := 64, size_normal_y := 64 }

/-- A configuration whose displacement FFT resolution (128) differs from its
normal-map FFT resolution (256), making the two observably distinct. -/
def cfgC1 : OceanConfig :=
  { height_fft_size := 256, displacement_fft_size := 128, normal_fft_size := 256
    grid_width := 64, grid_height := 64, grid_resolution := 8
    size_x := 1000, size_y := 1000, size_normal_x := 64, size_normal_y := 64 }

/-- A concrete two-level `OceanInfo` for exercising the render loop. -/
def infoW : OceanInfo :=
  { ubo := 11, indirect := 10, vbos := [21, 22], ibos := [31, 32]
    lods := 2, lod_stride := 32768 }

/-- A concrete per-frame state (camera at the origin, time 0). -/
def stateW1 : OceanState :=
  { config := cfg64, current_time := 0
    last_camera_position := (0, 0, 0), quad_lod := build_buffers 8 }

/-- The same per-frame state as `stateW1` except that the elapsed time has
advanced to 5. -/
def stateW2 : OceanState :=
  { config := cfg64, current_time := 5
    last_camera_position := (0, 0, 0), quad_lod := build_buffers 8 }

section HelperLemmas

theorem length_flatMap_const {α β : Type} (l : List α) (f : α → List β) (c : ℕ)
    (h : ∀ a ∈ l, (f a).length = c) : (l.flatMap f).length = l.length * c := by
  induction l with
  | nil => simp
  | cons hd tl ih =>
    simp only [List.flatMap_cons, List.length_append, List.length_cons]
    rw [h hd (by simp), ih (fun a ha => h a (by simp [ha]))]
    ring

theorem lodIndices_length (size : ℕ) :
    (lodIndices size).length = size * (2 * (size + 1) + 1) := by
  unfold lodIndices
  rw [length_flatMap_const _ _ (2 * (size + 1) + 1), List.length_range]
  intro a _
  rw [List.length_append,
    length_flatMap_const _ _ 2 (fun b _ => by simp), List.length_range]
  simp
  ring

theorem buildBuffersLoop_fuel_irrel (res : ℕ) :
    ∀ fuel size stride, size ≤ fuel →
      buildBuffersLoop res fuel size stride = buildBuffersLoop res size size stride := by
  intro fuel
  induction fuel using Nat.strong_induction_on with
  | _ fuel ih =>
    intro size stride hle
    match fuel, size with
    | 0, 0 => rfl
    | 0, _ + 1 => omega
    | f + 1, 0 => rfl
    | f + 1, s + 1 =>
      show buildBuffersLoop res (f + 1) (s + 1) stride = _
      rw [buildBuffersLoop, buildBuffersLoop]
      by_cases hs : 2 ≤ s + 1
      · rw [if_pos hs, if_pos hs]
        have h1 : (s + 1) / 2 ≤ f := by omega
        have h2 : (s + 1) / 2 ≤ s := by omega
        rw [ih f (by omega) ((s + 1) / 2) (stride * 2) h1,
          ih s (by omega) ((s + 1) / 2) (stride * 2) h2]
      · rw [if_neg hs, if_neg hs]

theorem buildBuffersLoop_getD_count (res : ℕ) :
    ∀ fuel size stride i, i < (buildBuffersLoop res fuel size stride).length →
      ((buildBuffersLoop res fuel size stride).getD i default).count
        = (size / 2 ^ i) * (2 * (size / 2 ^ i + 1) + 1) := by
  intro fuel
  induction fuel with
  | zero => intro size stride i h; simp [buildBuffersLoop] at h
  | succ fuel ih =>
    intro size stride i h
    rw [buildBuffersLoop] at h ⊢
    by_cases hs : 2 ≤ size
    · rw [if_pos hs] at h ⊢
      cases i with
      | zero =>
        simp only [List.getD_cons_zero, pow_zero, Nat.div_one]
        exact lodIndices_length size
      | succ j =>
        simp only [List.getD_cons_succ]
        have hlen : j < (buildBuffersLoop res fuel (size / 2) (stride * 2)).length := by
          simpa using h
        have hdiv : size / 2 / 2 ^ j = size / 2 ^ (j + 1) := by
          rw [Nat.div_div_eq_div_mul, ← pow_succ']
        rw [ih (size / 2) (stride * 2) j hlen, hdiv]
    · rw [if_neg hs] at h
      simp at h

theorem init_counter_data_getD (q : List LOD) (i : ℕ) (h : i < 16) :
    (init_counter_data q).getD i 0 = (q.map LOD.count).getD i 0 := by
  unfold init_counter_data
  rw [List.getD_eq_getElem?_getD, List.getElem?_map, List.getElem?_range h]
  simp [List.getD_eq_getElem?_getD]

theorem map_count_getD (q : List LOD) (i : ℕ) (h : i < q.length) :
    (q.map LOD.count).getD i 0 = (q.getD i default).count := by
  rw [List.getD_eq_getElem?_getD, List.getD_eq_getElem?_getD, List.getElem?_map,
    List.getElem?_eq_getElem h]
  simp

theorem map_count_getD_of_le (q : List LOD) (i : ℕ) (h : q.length ≤ i) :
    (q.map LOD.count).getD i 0 = 0 := by
  rw [List.getD_eq_getElem?_getD, List.getElem?_eq_none (by simpa using h)]
  rfl

theorem filterMap_draw_range (info : OceanInfo) :
    ∀ n, ((List.range n).flatMap (render_lod info)).filterMap indirectDrawArgs
      = (List.range n).map fun lod => (info.indirect, 8 * 4 * lod, 1, 8 * 4) := by
  intro n
  induction n with
  | zero => rfl
  | succ n ih =>
    rw [List.range_succ]
    simp only [List.flatMap_append, List.filterMap_append, List.map_append, ih,
      List.flatMap_cons, List.flatMap_nil, List.append_nil, List.map_cons, List.map_nil]
    rfl

theorem infix_flatMap_of_mem {α β : Type} {a : α} {l : List α} (h : a ∈ l)
    (f : α → List β) : (f a).IsInfix (l.flatMap f) := by
  induction l with
  | nil => cases h
  | cons hd tl ih =>
    rcases List.mem_cons.1 h with rfl | h2
    · exact ⟨[], tl.flatMap f, by simp⟩
    · obtain ⟨s, t, e⟩ := ih h2
      exact ⟨f hd ++ s, t, by rw [List.flatMap_cons, ← e]; simp⟩

theorem infix_append_left {α : Type} {l₁ l₂ pre : List α} (h : l₁.IsInfix l₂) :
    l₁.IsInfix (pre ++ l₂) := by
  obtain ⟨s, t, e⟩ := h
  exact ⟨pre ++ s, t, by rw [← e]; simp⟩

theorem boundaryWeights_cases (res x y : ℕ) :
    boundaryWeights res x y ∈
      ([(255, 0, 0, 0), (0, 255, 0, 0), (0, 0, 255, 0), (0, 0, 0, 255), (0, 0, 0, 0)] :
        List (ℕ × ℕ × ℕ × ℕ)) := by
  unfold boundaryWeights
  split_ifs <;> simp

theorem mem_lodVertices {res stride : ℕ} {v : OceanVertex}
    (h : v ∈ lodVertices res stride) : ∃ x y, v = oceanVertexAt res x y := by
  unfold lodVertices at h
  rw [List.mem_flatMap] at h
  obtain ⟨y, _, hy⟩ := h
  rw [List.mem_map] at hy
  obtain ⟨x, _, rfl⟩ := hy
  exact ⟨x, y, rfl⟩

end HelperLemmas

/-- C1: the three inverse transforms are configured exactly as the claim states
(complex-to-real at the height resolution, complex-to-complex at the displacement
and normal resolutions), but the time-modulation dispatch for the displacement
field is NOT parameterized by the displacement FFT resolution: at a configuration
with displacement resolution 128 and normal resolution 256, the displacement
`generate_fft` dispatch carries push constant `N = (256, 256)` (taken from
`normal_fft_size`, ocean.cpp:343) while its workgroup counts use the displacement
resolution — the code slip the claim's last sentence contradicts. -/
theorem c1_displacement_time_modulation_mismatch :
    (Except.map
        (fun s : OceanDeviceState =>
          ((s.height_fft.mode, s.height_fft.size_x, s.height_fft.size_y),
           (s.displacement_fft.mode, s.displacement_fft.size_x, s.displacement_fft.size_y),
           (s.normal_fft.mode, s.normal_fft.size_x, s.normal_fft.size_y)))
        (on_device_created cfgC1)
      = .ok ((FFTMode.complexToReal, 256, 256), (FFTMode.complexToComplex, 128, 128),
             (FFTMode.complexToComplex, 256, 256))) ∧
    ((update_fft_input cfgC1 5).map fun d => d.variant)
      = [.base, .gradientDisplacement, .gradientNormal] ∧
    ((update_fft_input cfgC1 5).map fun d => d.N)
      = [(256, 256), (256, 256), (256, 256)] ∧
    ((update_fft_input cfgC1 5).map fun d => d.groups)
      = [(4, 256, 1), (2, 128, 1), (4, 256, 1)] ∧
    cfgC1.displacement_fft_size = 128 ∧ cfgC1.normal_fft_size = 256 :=
  ⟨rfl, rfl, rfl, rfl, rfl, rfl⟩

/-- C2 counterexample: for tessellation resolution 8 the builder produces 3 tiers,
not the 4 the claim states (`while (size >= 2)` stops before the stride-8 tier). -/
theorem c2_resolution8_not_four_tiers : (build_buffers 8).length ≠ 4 := by decide

/-- C2 amended: for tessellation resolution 8 the LOD mesh table has exactly 3
tiers (strides 1, 2, 4, visible in the vertex counts 81, 25, 9); tier 0 has
(8+1)·(8+1) = 81 vertices; each tier of per-tier size `s` has index-buffer length
`s * (2 * (s + 1) + 1)`; and in general every tier's index count obeys that
formula. -/
theorem c2_lod_table_amended :
    (build_buffers 8).length = 3 ∧
    ((build_buffers 8).map fun l => l.vbo.length) = [81, 25, 9] ∧
    ((build_buffers 8).map LOD.count)
      = [8 * (2 * 9 + 1), 4 * (2 * 5 + 1), 2 * (2 * 3 + 1)] ∧
    ∀ res size stride, (build_lod res size stride).count = size * (2 * (size + 1) + 1) :=
  ⟨by decide, by decide, by decide, fun _ size _ => lodIndices_length size⟩

/-- C3 counterexample: with tessellation resolution 8 (hence 3 LOD tiers), the
gradient-jacobian texture is NOT declared with a mip count equal to the tier
count — its `levels` field is reassigned to 0 (ocean.cpp:568) before the
declaration. -/
theorem c3_gradient_jacobian_levels_zero :
    ¬ declaredLevels
        (add_fft_update_pass_textures cfg64 (build_buffers cfg64.grid_resolution).length)
        "ocean-gradient-jacobian-output"
      = some (build_buffers cfg64.grid_resolution).length := by decide

/-- C3 amended: the combined height-displacement texture is declared with a mip
level count equal to the LOD tier count, but the gradient-jacobian texture is
declared with a level count of 0 (the render graph's "full mip chain" convention),
not the tier count. -/
theorem c3_mip_levels_amended (c : OceanConfig) (res : ℕ) :
    declaredLevels (add_fft_update_pass_textures c (build_buffers res).length)
      "ocean-height-displacement-output" = some (build_buffers res).length ∧
    declaredLevels (add_fft_update_pass_textures c (build_buffers res).length)
      "ocean-gradient-jacobian-output" = some 0 :=
  ⟨rfl, rfl⟩

/-- C4 counterexample: with zero grid dimensions and zero tessellation resolution
(and well-formed FFT sizes), the construction path completes normally — it builds
an empty LOD table and returns a state — instead of failing with a configuration
error as the claim requires. -/
theorem c4_zero_grid_construction_completes :
    ∃ s, on_device_created zeroGridConfig = Except.ok s ∧ s.quad_lod = [] :=
  ⟨_, rfl, rfl⟩

/-- C4 amended: construction performs no configuration validation at all — it
completes normally on every configuration; a zero tessellation resolution merely
yields zero LOD tiers.  (Power-of-two validation of the FFT sizes, if any, happens
inside the external FFT library, not in this code.) -/
theorem c4_no_validation_amended :
    (∀ c : OceanConfig, (on_device_created c).isOk = true) ∧
    Except.map (fun s : OceanDeviceState => s.quad_lod.length)
      (on_device_created zeroGridConfig) = .ok 0 :=
  ⟨fun _ => rfl, rfl⟩

set_option maxRecDepth 4000 in
/-- C5: with a 64×64 cell grid, world size 1000×1000 and the camera at the origin,
the snapped grid center is (0, 0) and the world-space grid base offset is
(−500, −500); with an all-accepting frustum, the total number of appended tiles
over all LOD levels is 64·64 = 4096. -/
theorem c5_end_to_end_snapping_and_cull_count :
    get_snapped_grid_center 0 0 cfg64 = (0, 0) ∧
    grid_base_offset 0 0 cfg64 = (-500, -500) ∧
    cullAppendTotal (fun _ _ => true) cfg64.grid_width cfg64.grid_height = 4096 := by
  refine ⟨?_, ?_, ?_⟩
  · simp [get_snapped_grid_center, roundHalfAwayFromZero, cfg64]
    norm_num
  · simp [grid_base_offset, get_snapped_grid_center, get_grid_size,
      roundHalfAwayFromZero, cfg64]
    norm_num
  · show cullAppendTotal (fun _ _ => true) 64 64 = 4096
    simp [cullAppendTotal, List.countP_eq_length]
    decide

/-- C6: in every frame's LOD update pass the recorded command trace is exactly
[detail-level-map dispatch, counter-zero-initialization dispatch, memory barrier,
culling dispatch]: the culling dispatch comes strictly after both other dispatches,
and exactly one memory barrier — compute-shader write made visible to
compute-shader read/write — stands between the zero-initialization write and the
culling dispatch. -/
theorem c6_lod_pass_ordering (s : OceanState) :
    (update_lod_pass s).countP isMemoryBarrier = 1 ∧
    ∃ d counters g p cg,
      update_lod_pass s =
        [OceanGpuCmd.dispatchLodMap d,
         OceanGpuCmd.dispatchInitCounter counters g,
         OceanGpuCmd.memoryBarrier PipelineStage.computeShader [AccessFlag.shaderWrite]
           PipelineStage.computeShader [AccessFlag.shaderWrite, AccessFlag.shaderRead],
         OceanGpuCmd.dispatchCullBlocks p cg] :=
  ⟨rfl, _, _, _, _, _, rfl⟩

/-- C7: the classification dispatch record — snapped grid center, grid base
coordinate and every push-constant input — is a deterministic function of the
latched camera position, the configuration and the LOD table; in particular two
states that agree on those (they may differ in elapsed time) produce identical
dispatch records, so any fixed classification kernel (`shader`, standing in for
`update_lod.comp`, which is a pure function of the dispatch) writes an identical
LOD level texture: grid snapping is idempotent. -/
theorem c7_controller_deterministic
    (shader : LodMapDispatch → ℤ × ℤ → ℚ) (s1 s2 : OceanState)
    (hcam : s1.last_camera_position = s2.last_camera_position)
    (hcfg : s1.config = s2.config)
    (hlod : s1.quad_lod = s2.quad_lod) :
    build_lod_map_state s1 = build_lod_map_state s2 ∧
    shader (build_lod_map_state s1) = shader (build_lod_map_state s2) ∧
    get_snapped_grid_center s1.last_camera_position.1 s1.last_camera_position.2.2 s1.config
      = get_snapped_grid_center s2.last_camera_position.1 s2.last_camera_position.2.2
          s2.config ∧
    get_grid_base_coord s1.last_camera_position.1 s1.last_camera_position.2.2 s1.config
      = get_grid_base_coord s2.last_camera_position.1 s2.last_camera_position.2.2
          s2.config := by
  have h : build_lod_map_state s1 = build_lod_map_state s2 := by
    unfold build_lod_map_state
    rw [hcam, hcfg, hlod]
  exact ⟨h, by rw [h], by rw [hcam, hcfg], by rw [hcam, hcfg]⟩

/-- C7 witness: two concrete states that differ only in elapsed time yield the
same classification dispatch record. -/
theorem c7_controller_deterministic_witness :
    (stateW1.last_camera_position = stateW2.last_camera_position ∧
     stateW1.config = stateW2.config ∧
     stateW1.quad_lod = stateW2.quad_lod ∧
     stateW1.current_time ≠ stateW2.current_time) ∧
    build_lod_map_state stateW1 = build_lod_map_state stateW2 :=
  ⟨⟨rfl, rfl, rfl, by decide⟩,
   (c7_controller_deterministic (fun _ _ => 0) stateW1 stateW2 rfl rfl rfl).1⟩

/-- C8: the render loop walks LOD levels from finest (0) to coarsest: the sequence
of indirect draws in the recorded trace is exactly one per level, in increasing
level order, each reading its arguments from the counter buffer at byte offset
`8 * sizeof(uint32) * level` with draw count 1 and stride 32 bytes; and each
level's draw is immediately preceded by binding that level's tile-data sub-range
(offset `lod_stride * level`, length `lod_stride`), vertex buffer and index
buffer.  The trace consists of GPU commands only — mirroring the source, which
contains no host-side readback of the counters. -/
theorem c8_render_indirect_draws (info : OceanInfo) :
    ((ocean_render info 1).filterMap indirectDrawArgs
      = (List.range info.lods).map fun lod => (info.indirect, 8 * 4 * lod, 1, 8 * 4)) ∧
    ∀ lod, lod < info.lods →
      List.IsInfix
        [RenderCmd.setUniformBuffer 3 0 info.ubo (info.lod_stride * lod) info.lod_stride,
         RenderCmd.setVertexBinding 0 (info.vbos.getD lod 0) 0 8,
         RenderCmd.setIndexBuffer (info.ibos.getD lod 0) 0,
         RenderCmd.drawIndexedIndirect info.indirect (8 * 4 * lod) 1 (8 * 4)]
        (ocean_render info 1) := by
  have hrender : ocean_render info 1 = render_instance info := by
    show ((List.range 1).flatMap fun _ => render_instance info) = render_instance info
    rw [show List.range 1 = [0] from rfl, List.flatMap_cons, List.flatMap_nil,
      List.append_nil]
  constructor
  · rw [hrender]
    unfold render_instance
    rw [List.filterMap_append, filterMap_draw_range]
    rfl
  · intro lod hl
    rw [hrender]
    unfold render_instance
    exact infix_append_left
      (infix_flatMap_of_mem (List.mem_range.mpr hl) (render_lod info))

/-- C8 witness: in the concrete two-level `infoW`, level 1's bind-and-draw block
occurs in the rendered trace. -/
theorem c8_render_indirect_draws_witness :
    1 < infoW.lods ∧
    List.IsInfix
      [RenderCmd.setUniformBuffer 3 0 infoW.ubo (infoW.lod_stride * 1) infoW.lod_stride,
       RenderCmd.setVertexBinding 0 (infoW.vbos.getD 1 0) 0 8,
       RenderCmd.setIndexBuffer (infoW.ibos.getD 1 0) 0,
       RenderCmd.drawIndexedIndirect infoW.indirect (8 * 4 * 1) 1 (8 * 4)]
      (ocean_render infoW 1) :=
  ⟨by decide, (c8_render_indirect_draws infoW).2 1 (by decide)⟩

/-- C9: every vertex produced by the LOD mesh builder has at most one of its four
boundary weights nonzero, each weight is 0 or 255; a corner vertex (on both an X
edge and a Y edge) carries only its X-edge weight (both Y weights zero); and every
interior vertex has all four weights zero — the weights come from the mutually
exclusive priority chain x = 0, x = res, y = 0, y = res. -/
theorem c9_boundary_weights_exclusive (res size stride : ℕ) :
    (∀ v ∈ (build_lod res size stride).vbo,
        List.countP (fun w => w != 0) [v.w0, v.w1, v.w2, v.w3] ≤ 1 ∧
        (v.w0 = 0 ∨ v.w0 = 255) ∧ (v.w1 = 0 ∨ v.w1 = 255) ∧
        (v.w2 = 0 ∨ v.w2 = 255) ∧ (v.w3 = 0 ∨ v.w3 = 255)) ∧
    (∀ x y, (x = 0 ∨ x = res) → (y = 0 ∨ y = res) →
        (oceanVertexAt res x y).w2 = 0 ∧ (oceanVertexAt res x y).w3 = 0 ∧
        ((oceanVertexAt res x y).w0 = 255 ∨ (oceanVertexAt res x y).w1 = 255)) ∧
    (∀ x y, 0 < x → x < res → 0 < y → y < res →
        (oceanVertexAt res x y).w0 = 0 ∧ (oceanVertexAt res x y).w1 = 0 ∧
        (oceanVertexAt res x y).w2 = 0 ∧ (oceanVertexAt res x y).w3 = 0) := by
  refine ⟨?_, ?_, ?_⟩
  · intro v hv
    have hv2 : v ∈ lodVertices res stride := by simpa [build_lod] using hv
    obtain ⟨x, y, rfl⟩ := mem_lodVertices hv2
    have hbc := boundaryWeights_cases res x y
    simp only [List.mem_cons, List.not_mem_nil, or_false] at hbc
    rcases hbc with h | h | h | h | h <;> simp [oceanVertexAt, h]
  · intro x y hx _hy
    rcases hx with rfl | hxr
    · simp [oceanVertexAt, boundaryWeights]
    · rw [hxr]
      by_cases hres : res = 0
      · subst hres
        simp [oceanVertexAt, boundaryWeights]
      · simp [oceanVertexAt, boundaryWeights, hres]
  · intro x y hx1 hx2 hy1 hy2
    have h1 : ¬ x = 0 := by omega
    have h2 : ¬ x = res := by omega
    have h3 : ¬ y = 0 := by omega
    have h4 : ¬ y = res := by omega
    simp [oceanVertexAt, boundaryWeights, h1, h2, h3, h4]

/-- C9 witness: the interior vertex (3, 3) of the resolution-8 tier-0 mesh has all
four boundary weights zero. -/
theorem c9_boundary_weights_exclusive_witness :
    (0 < 3 ∧ 3 < 8) ∧
    ((oceanVertexAt 8 3 3).w0 = 0 ∧ (oceanVertexAt 8 3 3).w1 = 0 ∧
     (oceanVertexAt 8 3 3).w2 = 0 ∧ (oceanVertexAt 8 3 3).w3 = 0) :=
  ⟨⟨by decide, by decide⟩,
   (c9_boundary_weights_exclusive 8 8 1).2.2 3 3 (by decide) (by decide)
     (by decide) (by decide)⟩

/-- C10: the 16-entry constant array handed to the counter-initialization dispatch
has, at every index `i` below the number of built tiers, exactly tier `i`'s index
count (which equals `s * (2 * (s + 1) + 1)` for that tier's per-tier size
`s = res / 2^i`), and 0 at every index at or beyond the tier count. -/
theorem c10_counter_init_index_counts (res : ℕ) :
    (init_counter_data (build_buffers res)).length = 16 ∧
    (∀ i, i < 16 → i < (build_buffers res).length →
        (init_counter_data (build_buffers res)).getD i 0
          = ((build_buffers res).getD i default).count ∧
        (init_counter_data (build_buffers res)).getD i 0
          = (res / 2 ^ i) * (2 * (res / 2 ^ i + 1) + 1)) ∧
    (∀ i, i < 16 → (build_buffers res).length ≤ i →
        (init_counter_data (build_buffers res)).getD i 0 = 0) := by
  refine ⟨by simp [init_counter_data], ?_, ?_⟩
  · intro i h16 hlen
    have h1 := init_counter_data_getD (build_buffers res) i h16
    have h2 := map_count_getD (build_buffers res) i hlen
    have h3 := buildBuffersLoop_getD_count res res res 1 i hlen
    exact ⟨h1.trans h2, (h1.trans h2).trans h3⟩
  · intro i h16 hge
    rw [init_counter_data_getD _ _ h16, map_count_getD_of_le _ _ hge]

/-- C10 witness: at resolution 8, entry 1 of the uploaded array is tier 1's index
count 4 · (2·5 + 1) = 44, and entries past the 3 built tiers are zero. -/
theorem c10_counter_init_index_counts_witness :
    (1 < 16 ∧ 1 < (build_buffers 8).length) ∧
    (init_counter_data (build_buffers 8)).getD 1 0
      = (8 / 2 ^ 1) * (2 * (8 / 2 ^ 1 + 1) + 1) ∧
    (init_counter_data (build_buffers 8)).getD 5 0 = 0 :=
  ⟨⟨by decide, by decide⟩,
   ((c10_counter_init_index_counts 8).2.1 1 (by decide) (by decide)).2,
   (c10_counter_init_index_counts 8).2.2 5 (by decide) (by decide)⟩

end Granite
